import Mathlib

/-!
Verification of the Fleet deployment tool (`src/main.rs`).

We give a shallow embedding of the `Deploy` and `Upgrade` subcommand arms of
`main_with_result`: the sequence of external commands each workflow invokes,
the operator notices it prints, and how it terminates (normal success, an
error return which `main` turns into exit status 1, or a direct
`std::process::exit`).  External effects — the result of `workspace::init`,
the program-state probe, and the success of each shelled-out command — are
supplied by an environment oracle, and the run functions are deterministic
over that oracle, exactly mirroring the branching of the source.
-/

namespace Fleet

/-- Failure of `workspace::init` (the `workspace` module; its possible errors
are manifest reading, network resolution and filesystem access per the spec). -/
inductive InitError
  | manifestRead
  | unknownNetwork
  | ioError
  deriving DecidableEq, Repr

/-- One external command invocation, with the arguments that distinguish it.
Constructors correspond to the `Command::new(...)` calls in `main.rs` plus the
program-state probe (`show_program`) and the artifact copy. The
`anchorIdlSetBuffer` constructor exists to state that the automatic IDL
finalize command is never invoked: `main.rs` only prints a manual
instruction for it. -/
inductive Cmd
  | probeCmd (programKey : String)
  | solanaDeploy (bin keypair programId : String)
  | solanaSetUpgradeAuthority (programId keypair newAuthority : String)
  | anchorIdlInit (programKey idlPath cluster wallet : String)
  | anchorIdlSetAuthority (programId newAuthority cluster wallet : String)
  | solanaWriteBuffer (bin keypair bufferPath : String)
  | solanaSetBufferAuthority (bufferKey keypair newAuthority : String)
  | solanaDeployBuffer (bufferKey keypair programId : String)
  | anchorIdlWriteBuffer (programKey idlPath cluster wallet : String)
  | anchorIdlSetBuffer (programKey : String)
  | copyArtifacts
  deriving DecidableEq, Repr

/-- Errors returned from `main_with_result` (each makes `main` print the
message and exit with status 1). -/
inductive FleetError
  | init (e : InitError)
  | duplicateVersion
  | missingCredential
  | probeError
  | tempFileError
  | keypairWriteError
  | commandFailure (c : Cmd)
  | copyFailed
  deriving DecidableEq, Repr

/-- The decision-relevant operator notices printed by the workflows. -/
inductive Msg
  | alreadyDeployedUseUpgrade
  | notDeployedUseDeploy
  | manualIdlSetBuffer (programKey : String)
  deriving DecidableEq, Repr

/-- How a run of `main_with_result` terminates: a normal `Ok(())` return
(`main` exits 0), an `Err` return (`main` exits 1), or a direct
`std::process::exit(code)`. -/
inductive Outcome
  | success
  | failure (e : FleetError)
  | exitWith (code : Nat)
  deriving DecidableEq, Repr

/-- Result of one probe invocation: the external query command failed to run
at all, or it ran and reported whether the program account exists. -/
inductive ProbeResult
  | err
  | ok (ex : Bool)
  deriving DecidableEq, Repr

/-- The `Workspace` context built by `workspace::init`: resolved version,
program key, current build-output paths, deployer credential path, network
configuration, the interface-description capability flag (`has_anchor`), and
the result of the `artifact_paths.exist()` filesystem check for the resolved
(program, version) pair. -/
structure Workspace where
  programName : String
  deployVersion : String
  programKey : String
  bin : String
  idPath : String
  idlPath : String
  deployerPath : String
  upgradeAuthority : String
  network : String
  hasAnchor : Bool
  artifactsExist : Bool
  deriving DecidableEq, Repr

/-- The environment oracle for one invocation: the `UPGRADE_AUTHORITY_KEYPAIR`
environment variable, the result of `workspace::init`, the result of the n-th
probe invocation, success of each external command, success of the artifact
copy, success of temp-file creation and of writing the staging keypair, and
the freshly generated buffer key and temp-file path. -/
structure Env where
  upgradeAuthorityKeypair : Option String
  ws : Except InitError Workspace
  probe : Nat → ProbeResult
  cmdOk : Cmd → Bool
  copyOk : Bool
  tempFileOk : Bool
  keypairWriteOk : Bool
  bufferKey : String
  bufferFilePath : String

/-- Collected observable behaviour of one run: the external commands invoked
in order, the notices printed, and the termination outcome. -/
structure RunResult where
  trace : List Cmd
  msgs : List Msg
  outcome : Outcome
  deriving DecidableEq, Repr

/-- The process exit status produced by `main` for a given outcome of
`main_with_result` (src/main.rs lines 304-308). -/
def RunResult.exitCode (r : RunResult) : Nat :=
  match r.outcome with
  | .success => 0
  | .failure _ => 1
  | .exitWith c => c

/-- The `copy_artifacts` step that ends both workflows: the copy is attempted
and its failure is an error return. -/
def finishCopy (env : Env) (t : List Cmd) (ms : List Msg) : RunResult :=
  if env.copyOk then ⟨t ++ [.copyArtifacts], ms, .success⟩
  else ⟨t ++ [.copyArtifacts], ms, .failure .copyFailed⟩

/-- Shallow embedding of the `SubCommand::Deploy` arm of `main_with_result`
(src/main.rs lines 103-184): init, probe (short-circuit to exit 0 if the
program exists), `solana program deploy`, `solana program set-upgrade-authority`,
a second status probe, the two `anchor idl` steps when `has_anchor`, then the
artifact copy. -/
def runDeploy (env : Env) : RunResult :=
  match env.ws with
  | .error e => ⟨[], [], .failure (.init e)⟩
  | .ok ws =>
    match env.probe 0 with
    | .err => ⟨[.probeCmd ws.programKey], [], .failure .probeError⟩
    | .ok true =>
        ⟨[.probeCmd ws.programKey], [.alreadyDeployedUseUpgrade], .exitWith 0⟩
    | .ok false =>
        let cDeploy : Cmd := .solanaDeploy ws.bin ws.deployerPath ws.idPath
        if env.cmdOk cDeploy then
          let cAuth : Cmd :=
            .solanaSetUpgradeAuthority ws.idPath ws.deployerPath ws.upgradeAuthority
          if env.cmdOk cAuth then
            match env.probe 1 with
            | .err =>
                ⟨[.probeCmd ws.programKey, cDeploy, cAuth, .probeCmd ws.programKey],
                 [], .failure .probeError⟩
            | .ok _ =>
                let t : List Cmd :=
                  [.probeCmd ws.programKey, cDeploy, cAuth, .probeCmd ws.programKey]
                if ws.hasAnchor then
                  let cIdlInit : Cmd :=
                    .anchorIdlInit ws.programKey ws.idlPath ws.network ws.deployerPath
                  if env.cmdOk cIdlInit then
                    let cIdlAuth : Cmd :=
                      .anchorIdlSetAuthority ws.programKey ws.upgradeAuthority ws.network
                        ws.deployerPath
                    if env.cmdOk cIdlAuth then
                      finishCopy env (t ++ [cIdlInit, cIdlAuth]) []
                    else ⟨t ++ [cIdlInit, cIdlAuth], [], .failure (.commandFailure cIdlAuth)⟩
                  else ⟨t ++ [cIdlInit], [], .failure (.commandFailure cIdlInit)⟩
                else finishCopy env t []
          else ⟨[.probeCmd ws.programKey, cDeploy, cAuth], [], .failure (.commandFailure cAuth)⟩
        else ⟨[.probeCmd ws.programKey, cDeploy], [], .failure (.commandFailure cDeploy)⟩

/-- Shallow embedding of the `SubCommand::Upgrade` arm of `main_with_result`
(src/main.rs lines 185-288): credential lookup, init, duplicate-version
guard, probe (exit 1 if the program does not exist), staging keypair and temp
file, `solana program write-buffer`, `solana program set-buffer-authority`,
`solana program deploy --buffer` signed with the upgrade-authority
credential, a second status probe, the `anchor idl write-buffer` step plus
the manual set-buffer instruction when `has_anchor`, then the artifact copy. -/
def runUpgrade (env : Env) : RunResult :=
  match env.upgradeAuthorityKeypair with
  | none => ⟨[], [], .failure .missingCredential⟩
  | some cred =>
    match env.ws with
    | .error e => ⟨[], [], .failure (.init e)⟩
    | .ok ws =>
      if ws.artifactsExist then ⟨[], [], .failure .duplicateVersion⟩
      else
        match env.probe 0 with
        | .err => ⟨[.probeCmd ws.programKey], [], .failure .probeError⟩
        | .ok false =>
            ⟨[.probeCmd ws.programKey], [.notDeployedUseDeploy], .exitWith 1⟩
        | .ok true =>
            if env.tempFileOk then
              if env.keypairWriteOk then
                let cWb : Cmd := .solanaWriteBuffer ws.bin ws.deployerPath env.bufferFilePath
                if env.cmdOk cWb then
                  let cSba : Cmd :=
                    .solanaSetBufferAuthority env.bufferKey ws.deployerPath ws.upgradeAuthority
                  if env.cmdOk cSba then
                    let cDfb : Cmd := .solanaDeployBuffer env.bufferKey cred ws.programKey
                    if env.cmdOk cDfb then
                      match env.probe 1 with
                      | .err =>
                          ⟨[.probeCmd ws.programKey, cWb, cSba, cDfb, .probeCmd ws.programKey],
                           [], .failure .probeError⟩
                      | .ok _ =>
                          let t : List Cmd :=
                            [.probeCmd ws.programKey, cWb, cSba, cDfb, .probeCmd ws.programKey]
                          if ws.hasAnchor then
                            let cIwb : Cmd :=
                              .anchorIdlWriteBuffer ws.programKey ws.idlPath ws.network
                                ws.deployerPath
                            if env.cmdOk cIwb then
                              finishCopy env (t ++ [cIwb]) [.manualIdlSetBuffer ws.programKey]
                            else ⟨t ++ [cIwb], [], .failure (.commandFailure cIwb)⟩
                          else finishCopy env t []
                    else ⟨[.probeCmd ws.programKey, cWb, cSba, cDfb], [],
                          .failure (.commandFailure cDfb)⟩
                  else ⟨[.probeCmd ws.programKey, cWb, cSba], [],
                        .failure (.commandFailure cSba)⟩
                else ⟨[.probeCmd ws.programKey, cWb], [], .failure (.commandFailure cWb)⟩
              else ⟨[.probeCmd ws.programKey], [], .failure .keypairWriteError⟩
            else ⟨[.probeCmd ws.programKey], [], .failure .tempFileError⟩

namespace VersionResolver

/-- Modelled from the spec: `workspace::init` is not under `src/`; per
spec §4.1, `VersionResolver.resolve(explicit, manifest)` returns the explicit
version verbatim when present, otherwise the manifest-declared version, and
fails with `ManifestReadError` when the manifest is missing or unparsable
(modelled as `manifest = none`) and there is no explicit version. -/
def resolve (explicit : Option String) (manifest : Option String) :
    Except InitError String :=
  match explicit with
  | some v => .ok v
  | none =>
    match manifest with
    | some v => .ok v
    | none => .error .manifestRead

end VersionResolver

/-- The three files archived for one version. -/
structure ArtifactSet where
  bin : String
  id : String
  idl : String
  deriving DecidableEq, Repr

namespace ArtifactArchiver

/-- Modelled from the spec: `Workspace::copy_artifacts` is not under `src/`;
per spec §4.2, the archiver copies the current build outputs into the
version directory, overwriting whatever was previously archived there — the
resulting archived content is the fresh set regardless of the previous one. -/
def copy (previous : Option ArtifactSet) (fresh : ArtifactSet) :
    Option ArtifactSet :=
  some fresh

end ArtifactArchiver

/-! Concrete sample environments used by witnesses and counterexamples. -/

/-- A sample workspace for the program "escrow" at version 1.2.0, without the
interface-description capability and with no archived artifacts. -/
def wsSample : Workspace :=
  ⟨"escrow", "1.2.0", "ESCROWKEY", "target/deploy/escrow.so",
   "target/deploy/escrow-keypair.json", "target/idl/escrow.json",
   "deployer.json", "AUTHKEY", "devnet", false, false⟩

/-- A baseline environment: credential set, workspace resolves to
`wsSample`, every probe reports the program exists, every external command
and the copy succeed. -/
def envBase : Env :=
  ⟨some "upgrade-auth.json", .ok wsSample, fun _ => .ok true, fun _ => true,
   true, true, true, "BUFKEY", "/tmp/bufkp.json"⟩

/-- Artifacts for the resolved version already exist, but the credential
environment variable is unset. -/
def envDupNoCred : Env :=
  { envBase with
    upgradeAuthorityKeypair := none
    ws := .ok { wsSample with artifactsExist := true } }

/-- A fresh deployment environment: the first probe reports the program does
not exist, later probes report it does. -/
def envDeployFresh : Env :=
  { envBase with probe := fun n => if n = 0 then .ok false else .ok true }

/-- Upgrade environment with the capability flag set and every command
succeeding. -/
def envAnchor : Env :=
  { envBase with ws := .ok { wsSample with hasAnchor := true } }

/-- Upgrade environment with the capability flag set in which only the
`anchor idl write-buffer` command fails. -/
def envIdlFail : Env :=
  { envAnchor with
    cmdOk := fun c =>
      if c = Cmd.anchorIdlWriteBuffer "ESCROWKEY" "target/idl/escrow.json"
          "devnet" "deployer.json" then false else true }

/-- Deploy environment whose workspace already has archived artifacts for
the resolved version, with the program not yet on chain. -/
def envDeployFreshDup : Env :=
  { envDeployFresh with ws := .ok { wsSample with artifactsExist := true } }

/-! Theorems. -/

/-- C2: an Upgrade invocation with `UPGRADE_AUTHORITY_KEYPAIR` unset fails
with the missing-credential error before anything else runs: no external
command is invoked, no notice is printed, and the process exits non-zero. -/
theorem upgrade_missing_credential (env : Env)
    (h : env.upgradeAuthorityKeypair = none) :
    runUpgrade env = ⟨[], [], .failure .missingCredential⟩ ∧
      (runUpgrade env).exitCode ≠ 0 := by
  have he : runUpgrade env = ⟨[], [], .failure .missingCredential⟩ := by
    unfold runUpgrade
    rw [h]
  exact ⟨he, by rw [he]; simp [RunResult.exitCode]⟩

/-- C2 witness: the concrete environment with the credential unset. -/
theorem upgrade_missing_credential_witness :
    runUpgrade { envBase with upgradeAuthorityKeypair := none } =
      ⟨[], [], .failure .missingCredential⟩ ∧
    (runUpgrade { envBase with upgradeAuthorityKeypair := none }).exitCode ≠ 0 :=
  upgrade_missing_credential { envBase with upgradeAuthorityKeypair := none } rfl

/-- C1 (amended): when the upgrade-authority credential is set and the
workspace resolves, an Upgrade whose ArtifactPaths for the resolved
(program, version) already exist fails with the duplicate-version error,
invokes zero external commands, and the process exits non-zero. -/
theorem upgrade_duplicate_version (env : Env) (cred : String) (ws : Workspace)
    (hc : env.upgradeAuthorityKeypair = some cred)
    (hw : env.ws = .ok ws) (ha : ws.artifactsExist = true) :
    runUpgrade env = ⟨[], [], .failure .duplicateVersion⟩ ∧
      (runUpgrade env).exitCode ≠ 0 := by
  have he : runUpgrade env = ⟨[], [], .failure .duplicateVersion⟩ := by
    unfold runUpgrade
    rw [hc, hw]
    simp [ha]
  exact ⟨he, by rw [he]; simp [RunResult.exitCode]⟩

/-- C1 witness: a concrete environment with the credential set and artifacts
already archived for the resolved version. -/
theorem upgrade_duplicate_version_witness :
    runUpgrade { envBase with ws := .ok { wsSample with artifactsExist := true } } =
      ⟨[], [], .failure .duplicateVersion⟩ ∧
    (runUpgrade { envBase with
        ws := .ok { wsSample with artifactsExist := true } }).exitCode ≠ 0 :=
  upgrade_duplicate_version _ "upgrade-auth.json"
    { wsSample with artifactsExist := true } rfl rfl rfl

/-- C1 counterexample: an Upgrade invocation whose artifacts for the resolved
version already exist but whose credential is unset fails with the
missing-credential error, not the duplicate-version error — the claim as
stated (quantifying over every invocation with existing artifacts) is false. -/
theorem upgrade_duplicate_version_cex :
    envDupNoCred.ws = .ok { wsSample with artifactsExist := true } ∧
    runUpgrade envDupNoCred = ⟨[], [], .failure .missingCredential⟩ ∧
    FleetError.missingCredential ≠ FleetError.duplicateVersion := by
  refine ⟨rfl, ?_, by decide⟩
  rfl

/-- C4: a Deploy invocation whose probe reports the program already exists
invokes no further external command after the probe — in particular never the
deploy command — prints the notice directing the operator to Upgrade, and
exits with status 0. -/
theorem deploy_already_deployed (env : Env) (ws : Workspace)
    (hw : env.ws = .ok ws) (hp : env.probe 0 = .ok true) :
    runDeploy env =
      ⟨[.probeCmd ws.programKey], [.alreadyDeployedUseUpgrade], .exitWith 0⟩ ∧
    (∀ b k i, Cmd.solanaDeploy b k i ∉ (runDeploy env).trace) ∧
    (runDeploy env).exitCode = 0 := by
  have he : runDeploy env =
      ⟨[.probeCmd ws.programKey], [.alreadyDeployedUseUpgrade], .exitWith 0⟩ := by
    unfold runDeploy
    rw [hw, hp]
  refine ⟨he, ?_, by rw [he]; simp [RunResult.exitCode]⟩
  intro b k i
  rw [he]
  simp

/-- C4 witness: the baseline environment, whose probe reports the program
exists. -/
theorem deploy_already_deployed_witness :
    runDeploy envBase =
      ⟨[.probeCmd wsSample.programKey], [.alreadyDeployedUseUpgrade], .exitWith 0⟩ ∧
    (∀ b k i, Cmd.solanaDeploy b k i ∉ (runDeploy envBase).trace) ∧
    (runDeploy envBase).exitCode = 0 :=
  deploy_already_deployed envBase wsSample rfl rfl

/-- C5: an Upgrade invocation that reaches the probe and whose probe reports
the program does not exist terminates with the program-not-deployed error
(realized as the notice directing the operator to Deploy plus a direct exit
with status 1), and the write-buffer command is never invoked. -/
theorem upgrade_not_deployed (env : Env) (cred : String) (ws : Workspace)
    (hc : env.upgradeAuthorityKeypair = some cred)
    (hw : env.ws = .ok ws) (ha : ws.artifactsExist = false)
    (hp : env.probe 0 = .ok false) :
    runUpgrade env =
      ⟨[.probeCmd ws.programKey], [.notDeployedUseDeploy], .exitWith 1⟩ ∧
    (∀ b k p, Cmd.solanaWriteBuffer b k p ∉ (runUpgrade env).trace) ∧
    (runUpgrade env).exitCode ≠ 0 := by
  have he : runUpgrade env =
      ⟨[.probeCmd ws.programKey], [.notDeployedUseDeploy], .exitWith 1⟩ := by
    unfold runUpgrade
    rw [hc, hw]
    simp [ha, hp]
  refine ⟨he, ?_, by rw [he]; simp [RunResult.exitCode]⟩
  intro b k p
  rw [he]
  simp

/-- C5 witness: a concrete environment whose probe reports the program does
not exist. -/
theorem upgrade_not_deployed_witness :
    runUpgrade { envBase with probe := fun _ => .ok false } =
      ⟨[.probeCmd wsSample.programKey], [.notDeployedUseDeploy], .exitWith 1⟩ ∧
    (∀ b k p, Cmd.solanaWriteBuffer b k p ∉
        (runUpgrade { envBase with probe := fun _ => .ok false }).trace) ∧
    (runUpgrade { envBase with probe := fun _ => .ok false }).exitCode ≠ 0 :=
  upgrade_not_deployed _ "upgrade-auth.json" wsSample rfl rfl rfl rfl

/-- Helper: full description of a Deploy run in which the first probe
reports no existing program and every external command, probe and copy
succeed. Shared by several claims. -/
theorem deployHappyEq (env : Env) (ws : Workspace) (e : Bool)
    (hw : env.ws = .ok ws)
    (hp0 : env.probe 0 = .ok false) (hp1 : env.probe 1 = .ok e)
    (hcmd : ∀ c, env.cmdOk c = true) (hcopy : env.copyOk = true) :
    runDeploy env =
      ⟨[.probeCmd ws.programKey,
        .solanaDeploy ws.bin ws.deployerPath ws.idPath,
        .solanaSetUpgradeAuthority ws.idPath ws.deployerPath ws.upgradeAuthority,
        .probeCmd ws.programKey] ++
       (if ws.hasAnchor then
          [Cmd.anchorIdlInit ws.programKey ws.idlPath ws.network ws.deployerPath,
           Cmd.anchorIdlSetAuthority ws.programKey ws.upgradeAuthority ws.network
             ws.deployerPath]
        else []) ++ [.copyArtifacts], [], .success⟩ := by
  cases h : ws.hasAnchor <;>
    simp [runDeploy, hw, hp0, hp1, hcmd, hcopy, finishCopy, h]

/-- Helper: full description of an Upgrade run in which the credential is
set, no duplicate artifacts exist, every probe reports the program exists,
and every step succeeds. Shared by several claims. -/
theorem upgradeHappyEq (env : Env) (cred : String) (ws : Workspace)
    (hc : env.upgradeAuthorityKeypair = some cred)
    (hw : env.ws = .ok ws) (ha : ws.artifactsExist = false)
    (hp : ∀ n, env.probe n = .ok true)
    (hcmd : ∀ c, env.cmdOk c = true) (hcopy : env.copyOk = true)
    (ht : env.tempFileOk = true) (hk : env.keypairWriteOk = true) :
    runUpgrade env =
      ⟨[.probeCmd ws.programKey,
        .solanaWriteBuffer ws.bin ws.deployerPath env.bufferFilePath,
        .solanaSetBufferAuthority env.bufferKey ws.deployerPath ws.upgradeAuthority,
        .solanaDeployBuffer env.bufferKey cred ws.programKey,
        .probeCmd ws.programKey] ++
       (if ws.hasAnchor then
          [Cmd.anchorIdlWriteBuffer ws.programKey ws.idlPath ws.network ws.deployerPath]
        else []) ++ [.copyArtifacts],
       if ws.hasAnchor then [Msg.manualIdlSetBuffer ws.programKey] else [],
       .success⟩ := by
  cases h : ws.hasAnchor <;>
    simp [runUpgrade, hc, hw, ha, hp, hcmd, hcopy, ht, hk, finishCopy, h]

/-- C6 (amended): a Deploy invocation whose probe reports no existing
account and in which every external command succeeds invokes, in order,
the probe, the deploy command, the set-authority command, a second status
probe, the IDL init and IDL set-authority steps if and only if the
interface-description capability is present, then the artifact copy, and
the process exits 0. -/
theorem deploy_happy_sequence (env : Env) (ws : Workspace) (e : Bool)
    (hw : env.ws = .ok ws)
    (hp0 : env.probe 0 = .ok false) (hp1 : env.probe 1 = .ok e)
    (hcmd : ∀ c, env.cmdOk c = true) (hcopy : env.copyOk = true) :
    runDeploy env =
      ⟨[.probeCmd ws.programKey,
        .solanaDeploy ws.bin ws.deployerPath ws.idPath,
        .solanaSetUpgradeAuthority ws.idPath ws.deployerPath ws.upgradeAuthority,
        .probeCmd ws.programKey] ++
       (if ws.hasAnchor then
          [Cmd.anchorIdlInit ws.programKey ws.idlPath ws.network ws.deployerPath,
           Cmd.anchorIdlSetAuthority ws.programKey ws.upgradeAuthority ws.network
             ws.deployerPath]
        else []) ++ [.copyArtifacts], [], .success⟩ ∧
    (runDeploy env).exitCode = 0 := by
  have he := deployHappyEq env ws e hw hp0 hp1 hcmd hcopy
  exact ⟨he, by rw [he]; simp [RunResult.exitCode]⟩

/-- C6 witness: the concrete fresh-deployment environment. -/
theorem deploy_happy_sequence_witness :
    runDeploy envDeployFresh =
      ⟨[.probeCmd wsSample.programKey,
        .solanaDeploy wsSample.bin wsSample.deployerPath wsSample.idPath,
        .solanaSetUpgradeAuthority wsSample.idPath wsSample.deployerPath
          wsSample.upgradeAuthority,
        .probeCmd wsSample.programKey] ++
       (if wsSample.hasAnchor then
          [Cmd.anchorIdlInit wsSample.programKey wsSample.idlPath wsSample.network
             wsSample.deployerPath,
           Cmd.anchorIdlSetAuthority wsSample.programKey wsSample.upgradeAuthority
             wsSample.network wsSample.deployerPath]
        else []) ++ [.copyArtifacts], [], .success⟩ ∧
    (runDeploy envDeployFresh).exitCode = 0 :=
  deploy_happy_sequence envDeployFresh wsSample true rfl rfl rfl (fun _ => rfl) rfl

/-- C6 counterexample: in the concrete fresh-deployment environment without
the capability flag, the actual command sequence contains a second status
probe between set-authority and the artifact copy, so it is not the exact
sequence probe, deploy, set-authority, copy that the claim states. -/
theorem deploy_happy_sequence_cex :
    (runDeploy envDeployFresh).trace =
      [.probeCmd "ESCROWKEY",
       .solanaDeploy "target/deploy/escrow.so" "deployer.json"
         "target/deploy/escrow-keypair.json",
       .solanaSetUpgradeAuthority "target/deploy/escrow-keypair.json"
         "deployer.json" "AUTHKEY",
       .probeCmd "ESCROWKEY", .copyArtifacts] ∧
    (runDeploy envDeployFresh).trace ≠
      [.probeCmd "ESCROWKEY",
       .solanaDeploy "target/deploy/escrow.so" "deployer.json"
         "target/deploy/escrow-keypair.json",
       .solanaSetUpgradeAuthority "target/deploy/escrow-keypair.json"
         "deployer.json" "AUTHKEY",
       .copyArtifacts] := by
  constructor
  · rfl
  · decide

/-- C3 (amended): an Upgrade invocation with the credential set, no
duplicate artifacts, every probe reporting the program exists and every
step succeeding invokes, in order, the probe, write-buffer,
set-buffer-authority, deploy-from-buffer, a second status probe, the IDL
buffer-write if and only if the capability is present, then the artifact
copy; the deploy-from-buffer command is signed with the upgrade-authority
credential, never with the deployer credential, and the process exits 0. -/
theorem upgrade_happy_sequence (env : Env) (cred : String) (ws : Workspace)
    (hc : env.upgradeAuthorityKeypair = some cred)
    (hw : env.ws = .ok ws) (ha : ws.artifactsExist = false)
    (hp : ∀ n, env.probe n = .ok true)
    (hcmd : ∀ c, env.cmdOk c = true) (hcopy : env.copyOk = true)
    (ht : env.tempFileOk = true) (hk : env.keypairWriteOk = true) :
    runUpgrade env =
      ⟨[.probeCmd ws.programKey,
        .solanaWriteBuffer ws.bin ws.deployerPath env.bufferFilePath,
        .solanaSetBufferAuthority env.bufferKey ws.deployerPath ws.upgradeAuthority,
        .solanaDeployBuffer env.bufferKey cred ws.programKey,
        .probeCmd ws.programKey] ++
       (if ws.hasAnchor then
          [Cmd.anchorIdlWriteBuffer ws.programKey ws.idlPath ws.network ws.deployerPath]
        else []) ++ [.copyArtifacts],
       if ws.hasAnchor then [Msg.manualIdlSetBuffer ws.programKey] else [],
       .success⟩ ∧
    (runUpgrade env).exitCode = 0 ∧
    (cred ≠ ws.deployerPath →
      Cmd.solanaDeployBuffer env.bufferKey ws.deployerPath ws.programKey ∉
        (runUpgrade env).trace) := by
  have he := upgradeHappyEq env cred ws hc hw ha hp hcmd hcopy ht hk
  refine ⟨he, by rw [he]; simp [RunResult.exitCode], ?_⟩
  intro hne
  rw [he]
  cases h : ws.hasAnchor <;> simp [h] <;> exact fun heq => hne heq.symm

/-- C3 witness: the baseline upgrade environment without the capability
flag. -/
theorem upgrade_happy_sequence_witness :
    runUpgrade envBase =
      ⟨[.probeCmd wsSample.programKey,
        .solanaWriteBuffer wsSample.bin wsSample.deployerPath envBase.bufferFilePath,
        .solanaSetBufferAuthority envBase.bufferKey wsSample.deployerPath
          wsSample.upgradeAuthority,
        .solanaDeployBuffer envBase.bufferKey "upgrade-auth.json" wsSample.programKey,
        .probeCmd wsSample.programKey] ++
       (if wsSample.hasAnchor then
          [Cmd.anchorIdlWriteBuffer wsSample.programKey wsSample.idlPath
             wsSample.network wsSample.deployerPath]
        else []) ++ [.copyArtifacts],
       if wsSample.hasAnchor then [Msg.manualIdlSetBuffer wsSample.programKey] else [],
       .success⟩ ∧
    (runUpgrade envBase).exitCode = 0 ∧
    ("upgrade-auth.json" ≠ wsSample.deployerPath →
      Cmd.solanaDeployBuffer envBase.bufferKey wsSample.deployerPath
        wsSample.programKey ∉ (runUpgrade envBase).trace) :=
  upgrade_happy_sequence envBase "upgrade-auth.json" wsSample rfl rfl rfl
    (fun _ => rfl) (fun _ => rfl) rfl rfl rfl

/-- C3 counterexample: in the baseline upgrade environment the actual
command sequence contains a second status probe between deploy-from-buffer
and the artifact copy, so it is not the exact sequence probe, write-buffer,
set-buffer-authority, deploy-from-buffer, copy that the claim states. -/
theorem upgrade_happy_sequence_cex :
    (runUpgrade envBase).trace =
      [.probeCmd "ESCROWKEY",
       .solanaWriteBuffer "target/deploy/escrow.so" "deployer.json" "/tmp/bufkp.json",
       .solanaSetBufferAuthority "BUFKEY" "deployer.json" "AUTHKEY",
       .solanaDeployBuffer "BUFKEY" "upgrade-auth.json" "ESCROWKEY",
       .probeCmd "ESCROWKEY", .copyArtifacts] ∧
    (runUpgrade envBase).trace ≠
      [.probeCmd "ESCROWKEY",
       .solanaWriteBuffer "target/deploy/escrow.so" "deployer.json" "/tmp/bufkp.json",
       .solanaSetBufferAuthority "BUFKEY" "deployer.json" "AUTHKEY",
       .solanaDeployBuffer "BUFKEY" "upgrade-auth.json" "ESCROWKEY",
       .copyArtifacts] := by
  constructor
  · rfl
  · decide

/-- Helper: the artifact-copy step never produces the duplicate-version
error. -/
theorem finishCopy_outcome_ne_dup (env : Env) (t : List Cmd) (ms : List Msg) :
    (finishCopy env t ms).outcome ≠ .failure .duplicateVersion := by
  unfold finishCopy
  split <;> simp

/-- C7 (amended): in an Upgrade run that reaches the interface-description
step with the capability present, the step stages the updated description
via the `anchor idl write-buffer` command, the automatic finalize command
(`anchor idl set-buffer`) is never invoked, and when the buffer-write
succeeds the operator is told to run the manual finalize step; however, a
failure of the buffer-write aborts the remaining workflow — the artifact
copy does not run and the process fails. -/
theorem upgrade_idl_best_effort (env : Env) (cred : String) (ws : Workspace)
    (hc : env.upgradeAuthorityKeypair = some cred)
    (hw : env.ws = .ok ws) (ha : ws.artifactsExist = false)
    (hanchor : ws.hasAnchor = true)
    (hp : ∀ n, env.probe n = .ok true)
    (ht : env.tempFileOk = true) (hk : env.keypairWriteOk = true)
    (hwb : env.cmdOk
      (.solanaWriteBuffer ws.bin ws.deployerPath env.bufferFilePath) = true)
    (hsba : env.cmdOk
      (.solanaSetBufferAuthority env.bufferKey ws.deployerPath ws.upgradeAuthority) = true)
    (hdfb : env.cmdOk
      (.solanaDeployBuffer env.bufferKey cred ws.programKey) = true) :
    Cmd.anchorIdlWriteBuffer ws.programKey ws.idlPath ws.network ws.deployerPath ∈
      (runUpgrade env).trace ∧
    (∀ k, Cmd.anchorIdlSetBuffer k ∉ (runUpgrade env).trace) ∧
    (env.cmdOk (.anchorIdlWriteBuffer ws.programKey ws.idlPath ws.network
        ws.deployerPath) = true →
      Msg.manualIdlSetBuffer ws.programKey ∈ (runUpgrade env).msgs) ∧
    (env.cmdOk (.anchorIdlWriteBuffer ws.programKey ws.idlPath ws.network
        ws.deployerPath) = false →
      Cmd.copyArtifacts ∉ (runUpgrade env).trace ∧
      (runUpgrade env).outcome =
        .failure (.commandFailure (.anchorIdlWriteBuffer ws.programKey ws.idlPath
          ws.network ws.deployerPath))) := by
  cases hiwb : env.cmdOk
      (.anchorIdlWriteBuffer ws.programKey ws.idlPath ws.network ws.deployerPath)
  · have he : runUpgrade env =
        ⟨[.probeCmd ws.programKey,
          .solanaWriteBuffer ws.bin ws.deployerPath env.bufferFilePath,
          .solanaSetBufferAuthority env.bufferKey ws.deployerPath ws.upgradeAuthority,
          .solanaDeployBuffer env.bufferKey cred ws.programKey,
          .probeCmd ws.programKey,
          .anchorIdlWriteBuffer ws.programKey ws.idlPath ws.network ws.deployerPath],
         [], .failure (.commandFailure (.anchorIdlWriteBuffer ws.programKey ws.idlPath
           ws.network ws.deployerPath))⟩ := by
      simp [runUpgrade, hc, hw, ha, hanchor, hp, ht, hk, hwb, hsba, hdfb, hiwb]
    rw [he]
    refine ⟨by simp, fun k => by simp, fun h => by simp at h, fun _ => ⟨by simp, rfl⟩⟩
  · have he : runUpgrade env =
        finishCopy env
          [.probeCmd ws.programKey,
           .solanaWriteBuffer ws.bin ws.deployerPath env.bufferFilePath,
           .solanaSetBufferAuthority env.bufferKey ws.deployerPath ws.upgradeAuthority,
           .solanaDeployBuffer env.bufferKey cred ws.programKey,
           .probeCmd ws.programKey,
           .anchorIdlWriteBuffer ws.programKey ws.idlPath ws.network ws.deployerPath]
          [.manualIdlSetBuffer ws.programKey] := by
      simp [runUpgrade, hc, hw, ha, hanchor, hp, ht, hk, hwb, hsba, hdfb, hiwb,
        finishCopy]
    rw [he]
    cases hcp : env.copyOk <;>
      refine ⟨by simp [finishCopy, hcp], fun k => by simp [finishCopy, hcp],
        fun _ => by simp [finishCopy, hcp], fun h => by simp at h⟩

/-- C7 witness: the concrete capability-enabled upgrade environment where
every command succeeds. -/
theorem upgrade_idl_best_effort_witness :
    Cmd.anchorIdlWriteBuffer "ESCROWKEY" "target/idl/escrow.json" "devnet"
      "deployer.json" ∈ (runUpgrade envAnchor).trace ∧
    (∀ k, Cmd.anchorIdlSetBuffer k ∉ (runUpgrade envAnchor).trace) ∧
    (envAnchor.cmdOk (.anchorIdlWriteBuffer "ESCROWKEY" "target/idl/escrow.json"
        "devnet" "deployer.json") = true →
      Msg.manualIdlSetBuffer "ESCROWKEY" ∈ (runUpgrade envAnchor).msgs) ∧
    (envAnchor.cmdOk (.anchorIdlWriteBuffer "ESCROWKEY" "target/idl/escrow.json"
        "devnet" "deployer.json") = false →
      Cmd.copyArtifacts ∉ (runUpgrade envAnchor).trace ∧
      (runUpgrade envAnchor).outcome =
        .failure (.commandFailure (.anchorIdlWriteBuffer "ESCROWKEY"
          "target/idl/escrow.json" "devnet" "deployer.json"))) :=
  upgrade_idl_best_effort envAnchor "upgrade-auth.json"
    { wsSample with hasAnchor := true } rfl rfl rfl rfl (fun _ => rfl) rfl rfl
    rfl rfl rfl

/-- C7 counterexample: in the concrete environment where only the IDL
buffer-write fails, the whole run fails and the artifact copy is never
invoked — contradicting the claim that the step's failure does not abort
the remaining workflow. -/
theorem upgrade_idl_best_effort_cex :
    runUpgrade envIdlFail =
      ⟨[.probeCmd "ESCROWKEY",
        .solanaWriteBuffer "target/deploy/escrow.so" "deployer.json" "/tmp/bufkp.json",
        .solanaSetBufferAuthority "BUFKEY" "deployer.json" "AUTHKEY",
        .solanaDeployBuffer "BUFKEY" "upgrade-auth.json" "ESCROWKEY",
        .probeCmd "ESCROWKEY",
        .anchorIdlWriteBuffer "ESCROWKEY" "target/idl/escrow.json" "devnet"
          "deployer.json"],
       [], .failure (.commandFailure (.anchorIdlWriteBuffer "ESCROWKEY"
         "target/idl/escrow.json" "devnet" "deployer.json"))⟩ ∧
    Cmd.copyArtifacts ∉ (runUpgrade envIdlFail).trace ∧
    (runUpgrade envIdlFail).outcome ≠ .success := by
  refine ⟨by decide, by decide, by decide⟩

/-- C9: version resolution returns an explicitly supplied version verbatim
regardless of the manifest, falls back to the manifest-declared version
otherwise, and fails with the manifest-read error when neither is
available. -/
theorem version_resolution :
    (∀ v m, VersionResolver.resolve (some v) m = .ok v) ∧
    (∀ v, VersionResolver.resolve none (some v) = .ok v) ∧
    VersionResolver.resolve none none = .error .manifestRead :=
  ⟨fun _ _ => rfl, fun _ => rfl, rfl⟩

/-- C9 witness: concrete versions for each branch. -/
theorem version_resolution_witness :
    VersionResolver.resolve (some "2.0.0") (some "1.2.0") = .ok "2.0.0" ∧
    VersionResolver.resolve none (some "1.2.0") = .ok "1.2.0" ∧
    VersionResolver.resolve none none = .error .manifestRead :=
  ⟨version_resolution.1 "2.0.0" (some "1.2.0"), version_resolution.2.1 "1.2.0",
   version_resolution.2.2⟩

/-- C10: the Deploy workflow never tests the artifact-existence flag — its
behaviour is identical whatever that flag is — and never produces the
duplicate-version error; the archiver overwrites any previously archived
set; and a fresh deploy whose version's artifacts already exist still
succeeds and still invokes the artifact copy. -/
theorem deploy_no_duplicate_guard :
    (∀ (env : Env) (ws : Workspace) (b : Bool),
      runDeploy { env with ws := .ok { ws with artifactsExist := b } } =
        runDeploy { env with ws := .ok ws }) ∧
    (∀ env : Env, (runDeploy env).outcome ≠ .failure .duplicateVersion) ∧
    (∀ previous fresh, ArtifactArchiver.copy previous fresh = some fresh) ∧
    (∀ (env : Env) (ws : Workspace) (e : Bool),
      env.ws = .ok ws → ws.artifactsExist = true →
      env.probe 0 = .ok false → env.probe 1 = .ok e →
      (∀ c, env.cmdOk c = true) → env.copyOk = true →
      (runDeploy env).outcome = .success ∧
        Cmd.copyArtifacts ∈ (runDeploy env).trace) := by
  refine ⟨fun env ws b => rfl, ?_, fun _ _ => rfl, ?_⟩
  · intro env
    simp only [runDeploy]
    repeat' split
    all_goals first
      | exact finishCopy_outcome_ne_dup _ _ _
      | simp
  · intro env ws e hw hdup hp0 hp1 hcmd hcopy
    have he := deployHappyEq env ws e hw hp0 hp1 hcmd hcopy
    rw [he]
    cases h : ws.hasAnchor <;> simp [h]

/-- C10 witness: the Deploy run is unchanged by flipping the
artifact-existence flag on the concrete workspace, and the concrete fresh
deploy with pre-existing artifacts succeeds and copies. -/
theorem deploy_no_duplicate_guard_witness :
    runDeploy { envBase with ws := .ok { wsSample with artifactsExist := true } } =
      runDeploy { envBase with ws := .ok wsSample } ∧
    (runDeploy envDeployFreshDup).outcome ≠ .failure .duplicateVersion ∧
    ((runDeploy envDeployFreshDup).outcome = .success ∧
      Cmd.copyArtifacts ∈ (runDeploy envDeployFreshDup).trace) :=
  ⟨deploy_no_duplicate_guard.1 envBase wsSample true,
   deploy_no_duplicate_guard.2.1 envDeployFreshDup,
   deploy_no_duplicate_guard.2.2.2 envDeployFreshDup
     { wsSample with artifactsExist := true } true rfl rfl rfl rfl
     (fun _ => rfl) rfl⟩

end Fleet
